import Mathlib

/-!
Verification development for the Urban Heat Island (UHI) dashboard frontend.

The source is a React application: `App.jsx` holds a `UHIViewModel` class
(the API client: `fetchUHIData`, `checkHealth`, `validateParameters`) and the
application shell (state hooks plus the handlers `loadUHIData`,
`handleRefresh`, `handleApplyFilters`, `handleZoneFilter`, `handlePointClick`,
`handleExportData`); `components/MapView.jsx` is a standalone map component
that fetches its own point list and renders one marker per point.

JavaScript numbers are embedded as rationals (the comparisons the code makes
are on exactly representable values), HTTP responses as an explicit outcome
type, and thrown `Error` values as a structure holding the message string.
-/

namespace UHI

/-- A thrown JavaScript `Error`: the code only ever constructs `new Error(msg)`
and only ever reads `.message`, so the embedding is the message string. -/
structure JsError where
  message : String
deriving DecidableEq, Repr

/-- One sample point of the backend payload, as consumed by the map view:
`{ lat, lon, zone, recommendation }`. -/
structure SamplePoint where
  lat : ℚ
  lon : ℚ
  zone : ℤ
  recommendation : String
deriving DecidableEq, Repr

/-- The statistics object of the backend payload. The shell never inspects it
(it is stored and passed to children verbatim), so it is embedded as an opaque
wrapper around its serialized form. -/
structure Statistics where
  raw : String
deriving DecidableEq, Repr

/-- The decoded JSON body of the data endpoint:
`{ success, data, statistics, error? }`. -/
structure ApiPayload where
  success : Bool
  data : List SamplePoint
  statistics : Statistics
  error : Option String
deriving DecidableEq, Repr

/-- Outcome of one `fetch` call: either a response (with its `ok` flag, its
`status`, and its decoded body) or a rejected promise (network failure). -/
inductive NetOutcome where
  | response (ok : Bool) (status : ℕ) (body : ApiPayload)
  | failure (e : JsError)
deriving DecidableEq, Repr

/-- `UHIViewModel.validateParameters(numPoints, daysBack)`: pushes one message
when `numPoints < 10 || numPoints > 500` and one message when
`daysBack < 7 || daysBack > 90`, returning the accumulated list. -/
def validateParameters (numPoints daysBack : ℚ) : List String :=
  (if numPoints < 10 ∨ numPoints > 500 then
    ["Number of points must be between 10 and 500"] else []) ++
  (if daysBack < 7 ∨ daysBack > 90 then
    ["Days back must be between 7 and 90"] else [])

/-- `UHIViewModel.fetchUHIData`, as a function of the outcome of its `fetch`
call: an awaited rejection propagates; a response with `!response.ok` throws
`new Error` with the interpolated status; a body with `!result.success` throws
`new Error(result.error || "API returned error")`; otherwise the decoded body
is returned. -/
def fetchUHIData (o : NetOutcome) : Except JsError ApiPayload :=
  match o with
  | .failure e => .error e
  | .response ok status body =>
    if !ok then
      .error ⟨"HTTP error! status: " ++ toString status⟩
    else if !body.success then
      .error ⟨match body.error with
              | some msg => if msg = "" then "API returned error" else msg
              | none => "API returned error"⟩
    else
      .ok body

/-- `UHIViewModel.checkHealth`, as a function of the outcome of its `fetch`
call: the whole body is wrapped in `try/catch`, returning `response.ok` on a
response and `false` on any thrown error. -/
def checkHealth (o : NetOutcome) : Bool :=
  match o with
  | .response ok _ _ => ok
  | .failure _ => false

/-- The state owned by the `App` component: one field per `useState` hook that
participates in the data/fetch lifecycle (the header-visibility flag is pure
cosmetics and is omitted). -/
structure ShellState where
  uhiData : Option (List SamplePoint)
  statistics : Option Statistics
  loading : Bool
  error : Option String
  backendHealthy : Bool
  numPoints : ℚ
  daysBack : ℚ
  selectedZone : String
  selectedPoint : Option SamplePoint
  showHeatmap : Bool
  activeView : String
deriving DecidableEq, Repr

/-- The two leading `setState` calls of `loadUHIData`:
`setLoading(true); setError(null)` — the state while the cycle runs. -/
def loadingEntry (s : ShellState) : ShellState :=
  { s with loading := true, error := none }

/-- `err.message || "Failed to load UHI data"` from the catch block of
`loadUHIData`: the empty message string is falsy in JavaScript. -/
def catchBanner (e : JsError) : String :=
  if e.message = "" then "Failed to load UHI data" else e.message

/-- `loadUHIData`, as a function of the current state and of the result the
awaited `viewModel.fetchUHIData(numPoints, daysBack)` call would produce.
Returns the state after the cycle together with a flag recording whether the
fetch was actually issued. Mirrors the source: enter loading and clear the
error; if `validateParameters` returns a non-empty list, set the joined
message as the error and stop before the fetch; otherwise store `result.data`
and `result.statistics` on success or the caught error message on failure;
the `finally` block clears `loading` on every path. -/
def loadUHIData (s : ShellState) (fetchResult : Except JsError ApiPayload) :
    ShellState × Bool :=
  let s1 := loadingEntry s
  let errs := validateParameters s.numPoints s.daysBack
  if errs.length > 0 then
    ({ s1 with error := some (String.intercalate ". " errs),
               loading := false }, false)
  else
    match fetchResult with
    | .ok result =>
      ({ s1 with uhiData := some result.data,
                 statistics := some result.statistics,
                 loading := false }, true)
    | .error e =>
      ({ s1 with error := some (catchBanner e), loading := false }, true)

/-- One user- or effect-triggered event handled by the shell. A `load` event
(mount-after-health, Refresh, or Apply Changes) carries the result the fetch
would produce, so that `step` stays a function. -/
inductive Event where
  | load (fetchResult : Except JsError ApiPayload)
  | sliderPoints (v : ℚ)
  | sliderDays (v : ℚ)
  | zoneFilter (z : String)
  | pointClick (p : SamplePoint)
  | tabSwitch (v : String)
  | heatmapToggle (b : Bool)
  | exportClick
  | errorDismiss
  | healthResult (healthy : Bool)
deriving Repr

/-- The shell's event step: each branch is the body of the corresponding
handler in `App` (`loadUHIData`, the two slider `onChange`s,
`handleZoneFilter`, `handlePointClick`, the tab buttons, the heatmap checkbox,
`handleExportData`, the error-banner close button, `checkBackendHealth`).
The boolean records whether the data fetch was issued while handling the
event; `handleExportData` performs no `setState` call at all, so `exportClick`
leaves the state untouched. -/
def step (s : ShellState) (e : Event) : ShellState × Bool :=
  match e with
  | .load r => loadUHIData s r
  | .sliderPoints v => ({ s with numPoints := v }, false)
  | .sliderDays v => ({ s with daysBack := v }, false)
  | .zoneFilter z => ({ s with selectedZone := z }, false)
  | .pointClick p => ({ s with selectedPoint := some p }, false)
  | .tabSwitch v => ({ s with activeView := v }, false)
  | .heatmapToggle b => ({ s with showHeatmap := b }, false)
  | .exportClick => (s, false)
  | .errorDismiss => ({ s with error := none }, false)
  | .healthResult healthy =>
    if healthy then
      ({ s with backendHealthy := true }, false)
    else
      ({ s with backendHealthy := false,
                error := some "Backend server is not responding. Please try again later.",
                loading := false }, false)

/-- The decimal digit character of `n % 10`. -/
def digitChar (n : ℕ) : Char :=
  match n % 10 with
  | 0 => '0' | 1 => '1' | 2 => '2' | 3 => '3' | 4 => '4'
  | 5 => '5' | 6 => '6' | 7 => '7' | 8 => '8' | _ => '9'

/-- `n` rendered as two zero-padded decimal digits (for `n < 100`). -/
def pad2chars (n : ℕ) : List Char :=
  [digitChar (n / 10), digitChar n]

/-- `n` rendered as three zero-padded decimal digits (for `n < 1000`). -/
def pad3chars (n : ℕ) : List Char :=
  [digitChar (n / 100), digitChar (n / 10), digitChar n]

/-- `n` rendered as four zero-padded decimal digits (for `n < 10000`). -/
def pad4chars (n : ℕ) : List Char :=
  [digitChar (n / 1000), digitChar (n / 100), digitChar (n / 10), digitChar n]

/-- Civil date `(year, month, day)` of a day count since the Unix epoch
(the standard era-based Gregorian conversion used by date libraries). -/
def civilFromDays (days : ℕ) : ℕ × ℕ × ℕ :=
  let z := days + 719468
  let era := z / 146097
  let doe := z % 146097
  let yoe := (doe - doe / 1460 + doe / 36524 - doe / 146096) / 365
  let y := yoe + era * 400
  let doy := doe - (365 * yoe + yoe / 4 - yoe / 100)
  let mp := (5 * doy + 2) / 153
  let d := doy - (153 * mp + 2) / 5 + 1
  let m := if mp < 10 then mp + 3 else mp - 9
  (if m ≤ 2 then y + 1 else y, m, d)

/-- `Date.prototype.toISOString` on an epoch-millisecond timestamp, for dates
whose year fits in four digits: `YYYY-MM-DDTHH:MM:SS.sssZ` (UTC). -/
def toISOString (t : ℕ) : String :=
  let ms := t % 1000
  let totalSecs := t / 1000
  let sec := totalSecs % 60
  let totalMins := totalSecs / 60
  let minute := totalMins % 60
  let totalHours := totalMins / 60
  let hour := totalHours % 24
  let days := totalHours / 24
  let ymd := civilFromDays days
  String.mk (pad4chars ymd.1 ++ '-' :: pad2chars ymd.2.1 ++ '-' :: pad2chars ymd.2.2
    ++ 'T' :: pad2chars hour ++ ':' :: pad2chars minute ++ ':' :: pad2chars sec
    ++ '.' :: pad3chars ms ++ ['Z'])

/-- The date part of `toISOString`, i.e. the characters before the `'T'`:
what `new Date().toISOString().split("T")[0]` evaluates to. -/
def isoDatePart (t : ℕ) : String :=
  let days := t / 86400000
  let ymd := civilFromDays days
  String.mk (pad4chars ymd.1 ++ '-' :: pad2chars ymd.2.1 ++ '-' :: pad2chars ymd.2.2)

/-- Checks the ISO-8601 extended UTC timestamp shape
`YYYY-MM-DDTHH:MM:SS.sssZ`: 24 characters, digits and fixed separators. -/
def isValidISO8601 (str : String) : Bool :=
  match str.toList with
  | [y1, y2, y3, y4, a1, m1, m2, a2, d1, d2, tSep, h1, h2, b1, i1, i2, b2,
     e1, e2, dotSep, f1, f2, f3, zSep] =>
    ([y1, y2, y3, y4, m1, m2, d1, d2, h1, h2, i1, i2, e1, e2, f1, f2, f3].all
      Char.isDigit)
    && a1 == '-' && a2 == '-' && tSep == 'T' && b1 == ':' && b2 == ':'
    && dotSep == '.' && zSep == 'Z'
  | _ => false

/-- The JSON document `handleExportData` serializes:
`{ data, statistics, exportedAt }` (a `null` statistics field is serialized
as-is, hence the `Option`). -/
structure ExportDoc where
  data : List SamplePoint
  statistics : Option Statistics
  exportedAt : String
deriving DecidableEq, Repr

/-- `handleExportData`, as a function of the current state and the current
epoch-millisecond time: `if (!uhiData) return;` aborts exactly when `uhiData`
is `null` (an empty array is truthy), otherwise the handler builds the export
document with `exportedAt = new Date().toISOString()` and downloads it as
`uhi-analysis-` + the date part of the ISO timestamp + `.json`. It performs
no `setState` call. -/
def handleExportData (s : ShellState) (now : ℕ) : Option (ExportDoc × String) :=
  match s.uhiData with
  | none => none
  | some d =>
    some (⟨d, s.statistics, toISOString now⟩,
          "uhi-analysis-" ++ isoDatePart now ++ ".json")

/-- One rendered map marker: position, circle color, and the `title`
attribute that the browser shows as the tooltip. -/
structure MarkerView where
  latitude : ℚ
  longitude : ℚ
  color : String
  title : String
deriving DecidableEq, Repr

/-- The color ternary of `MapView.jsx`:
`d.zone === 2 ? "red" : d.zone === 1 ? "orange" : "green"`. -/
def markerColor (zone : ℤ) : String :=
  if zone = 2 then "red" else if zone = 1 then "orange" else "green"

/-- The marker list `MapView` renders from its point list: `data.map(...)`,
one `Marker` per point at `(d.lat, d.lon)` with the zone color and
`title={d.recommendation}`. The component takes no filter input: it renders
every point of the list it fetched itself. -/
def mapViewMarkers (data : List SamplePoint) : List MarkerView :=
  data.map (fun d => ⟨d.lat, d.lon, markerColor d.zone, d.recommendation⟩)

/-- Modelled from the spec (for comparison with `mapViewMarkers`): a map view
that renders one marker per point but excludes points outside the
selected-zone filter when one is selected. -/
def specFilteredMarkers (data : List SamplePoint) (selectedZone : Option ℤ) :
    List MarkerView :=
  (data.filter (fun d =>
    match selectedZone with
    | none => true
    | some z => d.zone == z)).map
    (fun d => ⟨d.lat, d.lon, markerColor d.zone, d.recommendation⟩)

/-! ## Claim theorems -/

/-- C1: `validateParameters` returns exactly one message for each violated
bound — one message when `numPoints` lies outside `[10, 500]`, one when
`daysBack` lies outside `[7, 90]` — and the empty list exactly when both
values are in range; the presence of each message depends only on its own
field (no cross-field rule). -/
theorem validateParameters_messages (p d : ℚ) :
    (validateParameters p d).count "Number of points must be between 10 and 500"
      = (if p < 10 ∨ p > 500 then 1 else 0) ∧
    (validateParameters p d).count "Days back must be between 7 and 90"
      = (if d < 7 ∨ d > 90 then 1 else 0) ∧
    (validateParameters p d).length
      = (if p < 10 ∨ p > 500 then 1 else 0) + (if d < 7 ∨ d > 90 then 1 else 0) ∧
    (validateParameters p d = [] ↔ (10 ≤ p ∧ p ≤ 500) ∧ (7 ≤ d ∧ d ≤ 90)) ∧
    (∀ q : ℚ, (validateParameters p q).count
        "Number of points must be between 10 and 500"
      = (validateParameters p d).count
        "Number of points must be between 10 and 500") ∧
    (∀ q : ℚ, (validateParameters q d).count "Days back must be between 7 and 90"
      = (validateParameters p d).count "Days back must be between 7 and 90") := by
  have hA : ∀ x y : ℚ,
      (validateParameters x y).count "Number of points must be between 10 and 500"
        = (if x < 10 ∨ x > 500 then 1 else 0) := by
    intro x y
    by_cases h1 : x < 10 ∨ x > 500 <;> by_cases h2 : y < 7 ∨ y > 90 <;>
      simp [validateParameters, h1, h2]
  have hB : ∀ x y : ℚ,
      (validateParameters x y).count "Days back must be between 7 and 90"
        = (if y < 7 ∨ y > 90 then 1 else 0) := by
    intro x y
    by_cases h1 : x < 10 ∨ x > 500 <;> by_cases h2 : y < 7 ∨ y > 90 <;>
      simp [validateParameters, h1, h2]
  have hempty : validateParameters p d = [] ↔ ¬(p < 10 ∨ p > 500) ∧ ¬(d < 7 ∨ d > 90) := by
    by_cases h1 : p < 10 ∨ p > 500 <;> by_cases h2 : d < 7 ∨ d > 90 <;>
      simp [validateParameters, h1, h2]
  refine ⟨hA p d, hB p d, ?_, ?_, fun q => by rw [hA p q, hA p d], fun q => by rw [hB q d, hB p d]⟩
  · by_cases h1 : p < 10 ∨ p > 500 <;> by_cases h2 : d < 7 ∨ d > 90 <;>
      simp [validateParameters, h1, h2]
  · rw [hempty]
    push_neg
    tauto

/-- C10: `validateParameters` imposes no integrality requirement: every pair
of (possibly non-integer) values inside the two ranges validates to the empty
list. -/
theorem validateParameters_no_integrality (p d : ℚ)
    (h1 : 10 ≤ p) (h2 : p ≤ 500) (h3 : 7 ≤ d) (h4 : d ≤ 90) :
    validateParameters p d = [] := by
  unfold validateParameters
  rw [if_neg (by push_neg; constructor <;> linarith),
      if_neg (by push_neg; constructor <;> linarith)]
  rfl

/-- Witness for C10 at the non-integer input `numPoints = 10.5`,
`daysBack = 30`. -/
theorem validateParameters_no_integrality_witness :
    validateParameters (21 / 2 : ℚ) 30 = [] :=
  validateParameters_no_integrality (21 / 2) 30
    (by norm_num) (by norm_num) (by norm_num) (by norm_num)

/-- C5: `checkHealth` is a total boolean function of the request outcome —
the `try/catch` means no exception escapes — a response yields its `ok` flag
and a network failure yields `false`. -/
theorem checkHealth_never_throws (e : JsError) (ok : Bool) (status : ℕ)
    (body : ApiPayload) :
    checkHealth (.failure e) = false ∧
    checkHealth (.response ok status body) = ok ∧
    (∀ o : NetOutcome, checkHealth o = true ∨ checkHealth o = false) := by
  refine ⟨rfl, rfl, fun o => ?_⟩
  cases checkHealth o
  · right; rfl
  · left; rfl

/-- C8: a zone click (`handleZoneFilter`) issues no network call and changes
no state field other than `selectedZone`. -/
theorem zoneFilter_frame (s : ShellState) (z : String) :
    step s (.zoneFilter z) = ({ s with selectedZone := z }, false) ∧
    (step s (.zoneFilter z)).1.uhiData = s.uhiData ∧
    (step s (.zoneFilter z)).1.statistics = s.statistics ∧
    (step s (.zoneFilter z)).1.loading = s.loading ∧
    (step s (.zoneFilter z)).1.error = s.error ∧
    (step s (.zoneFilter z)).1.backendHealthy = s.backendHealthy ∧
    (step s (.zoneFilter z)).1.numPoints = s.numPoints ∧
    (step s (.zoneFilter z)).1.daysBack = s.daysBack ∧
    (step s (.zoneFilter z)).1.selectedPoint = s.selectedPoint ∧
    (step s (.zoneFilter z)).1.showHeatmap = s.showHeatmap ∧
    (step s (.zoneFilter z)).1.activeView = s.activeView ∧
    (step s (.zoneFilter z)).1.selectedZone = z ∧
    (step s (.zoneFilter z)).2 = false :=
  ⟨rfl, rfl, rfl, rfl, rfl, rfl, rfl, rfl, rfl, rfl, rfl, rfl, rfl⟩

/-- C4: no shell step mixes data and statistics from different responses —
every event either leaves the `uhiData`/`statistics` pair untouched or sets
both fields from the same fetch payload. -/
theorem step_pair_same_response (s : ShellState) (e : Event) :
    ((step s e).1.uhiData = s.uhiData ∧ (step s e).1.statistics = s.statistics) ∨
    (∃ r : ApiPayload, (step s e).1.uhiData = some r.data ∧
      (step s e).1.statistics = some r.statistics) := by
  cases e with
  | load r =>
    cases r with
    | ok payload =>
      simp only [step, loadUHIData]
      split
      · exact Or.inl ⟨rfl, rfl⟩
      · exact Or.inr ⟨payload, rfl, rfl⟩
    | error err =>
      simp only [step, loadUHIData]
      split
      · exact Or.inl ⟨rfl, rfl⟩
      · exact Or.inl ⟨rfl, rfl⟩
  | sliderPoints v => exact Or.inl ⟨rfl, rfl⟩
  | sliderDays v => exact Or.inl ⟨rfl, rfl⟩
  | zoneFilter z => exact Or.inl ⟨rfl, rfl⟩
  | pointClick p => exact Or.inl ⟨rfl, rfl⟩
  | tabSwitch v => exact Or.inl ⟨rfl, rfl⟩
  | heatmapToggle b => exact Or.inl ⟨rfl, rfl⟩
  | exportClick => exact Or.inl ⟨rfl, rfl⟩
  | errorDismiss => exact Or.inl ⟨rfl, rfl⟩
  | healthResult healthy => cases healthy <;> exact Or.inl ⟨rfl, rfl⟩

/-- C9: a failed load cycle — invalid parameters, or any thrown fetch error
(non-2xx response, `success:false` payload, network failure, which the
accompanying conjuncts show all produce `Except.error`) — leaves the
previously loaded `uhiData` and `statistics` unchanged. -/
theorem loadUHIData_failure_preserves_data (s : ShellState)
    (r : Except JsError ApiPayload)
    (h : validateParameters s.numPoints s.daysBack ≠ [] ∨
         ∃ e, r = Except.error e) :
    ((loadUHIData s r).1.uhiData = s.uhiData ∧
     (loadUHIData s r).1.statistics = s.statistics) ∧
    (∀ status body, fetchUHIData (.response false status body) =
      Except.error ⟨"HTTP error! status: " ++ toString status⟩) ∧
    (∀ status body, body.success = false →
      ∃ e, fetchUHIData (.response true status body) = Except.error e) ∧
    (∀ e, fetchUHIData (.failure e) = Except.error e) := by
  refine ⟨?_, fun status body => rfl, fun status body hb => ?_, fun e => rfl⟩
  · rcases h with h | ⟨e, rfl⟩
    · simp only [loadUHIData]
      rw [if_pos (List.length_pos.mpr h)]
      exact ⟨rfl, rfl⟩
    · simp only [loadUHIData]
      split
      · exact ⟨rfl, rfl⟩
      · exact ⟨rfl, rfl⟩
  · simp only [fetchUHIData, hb]
    exact ⟨_, rfl⟩

/-- Witness for C9: a refresh whose fetch fails with a network error leaves
the previously loaded point list and statistics in place. -/
theorem loadUHIData_failure_preserves_data_witness :
    ((loadUHIData
        ⟨some [⟨1, 2, 0, "plant trees"⟩], some ⟨"stats"⟩, false, none, true,
         100, 30, "all", none, false, "map"⟩
        (Except.error ⟨"Failed to fetch"⟩)).1.uhiData
      = some [⟨1, 2, 0, "plant trees"⟩] ∧
     (loadUHIData
        ⟨some [⟨1, 2, 0, "plant trees"⟩], some ⟨"stats"⟩, false, none, true,
         100, 30, "all", none, false, "map"⟩
        (Except.error ⟨"Failed to fetch"⟩)).1.statistics = some ⟨"stats"⟩) :=
  ((loadUHIData_failure_preserves_data
    ⟨some [⟨1, 2, 0, "plant trees"⟩], some ⟨"stats"⟩, false, none, true,
     100, 30, "all", none, false, "map"⟩
    (Except.error ⟨"Failed to fetch"⟩)
    (Or.inr ⟨⟨"Failed to fetch"⟩, rfl⟩)).1)

/-- C2 (amended): `fetchUHIData` throws an `Error` whose message embeds the
status code when the response is non-success, throws an `Error` whose message
is the payload's `error` field (or the fallback `"API returned error"` when
that field is absent or empty) when the success flag is false, and otherwise
returns the decoded payload; both failures are the one JavaScript `Error`
type, distinguished only by their message. -/
theorem fetchUHIData_behavior (status : ℕ) (body : ApiPayload) (e : JsError) :
    fetchUHIData (.response false status body)
      = .error ⟨"HTTP error! status: " ++ toString status⟩ ∧
    (body.success = false → ∀ m, body.error = some m → m ≠ "" →
      fetchUHIData (.response true status body) = .error ⟨m⟩) ∧
    (body.success = false → body.error = none →
      fetchUHIData (.response true status body) = .error ⟨"API returned error"⟩) ∧
    (body.success = false → body.error = some "" →
      fetchUHIData (.response true status body) = .error ⟨"API returned error"⟩) ∧
    (body.success = true → fetchUHIData (.response true status body) = .ok body) ∧
    fetchUHIData (.failure e) = .error e := by
  refine ⟨rfl, ?_, ?_, ?_, ?_, rfl⟩
  · intro hs m hm hne
    simp [fetchUHIData, hs, hm, hne]
  · intro hs hm
    simp [fetchUHIData, hs, hm]
  · intro hs hm
    simp [fetchUHIData, hs, hm]
  · intro hs
    simp [fetchUHIData, hs]

/-- Witness for C2's amended theorem: a 404 response yields the status-bearing
error, a `success:false` payload with an `error` field yields that field. -/
theorem fetchUHIData_behavior_witness :
    fetchUHIData (.response false 404 ⟨true, [], ⟨""⟩, none⟩)
      = .error ⟨"HTTP error! status: " ++ toString 404⟩ ∧
    fetchUHIData (.response true 200 ⟨false, [], ⟨""⟩, some "backend failed"⟩)
      = .error ⟨"backend failed"⟩ :=
  ⟨(fetchUHIData_behavior 404 ⟨true, [], ⟨""⟩, none⟩ ⟨""⟩).1,
   (fetchUHIData_behavior 200 ⟨false, [], ⟨""⟩, some "backend failed"⟩ ⟨""⟩).2.1
     rfl "backend failed" rfl (by decide)⟩

/-- Counterexample to C2 as stated: the two failure kinds are not
distinguishable error types — a non-success HTTP response with status 500 and
a `success:false` payload whose `error` field happens to read
`"HTTP error! status: 500"` throw the very same `Error` value. -/
theorem fetchUHIData_error_kinds_counterexample :
    fetchUHIData (.response false 500 ⟨true, [], ⟨""⟩, none⟩)
      = fetchUHIData
          (.response true 200 ⟨false, [], ⟨""⟩, some "HTTP error! status: 500"⟩) ∧
    fetchUHIData (.response false 500 ⟨true, [], ⟨""⟩, none⟩)
      = Except.error ⟨"HTTP error! status: 500"⟩ := by
  constructor <;> rfl

/-- The interpolated HTTP error message is never the empty string (so the
catch block's falsy-fallback never replaces it). -/
lemma httpMsg_ne_empty (status : ℕ) :
    "HTTP error! status: " ++ toString status ≠ "" := by
  intro h
  have hlen := congrArg String.length h
  rw [String.length_append] at hlen
  have h20 : ("HTTP error! status: ").length = 20 := rfl
  rw [h20] at hlen
  simp at hlen

/-- C3: one load cycle (`loadUHIData`): the cycle starts by entering the
loading state with the error cleared; it always ends with `loading` false; if
validation fails it stores the joined validation message and issues no fetch
and touches no data; if validation passes it issues the fetch, stores the
payload's `data` and `statistics` on success, and stores the error message on
failure — for a non-2xx response a message embedding the status code, for a
`success:false` payload the payload's `error` field or the fallback. -/
theorem loadUHIData_cycle (s : ShellState) (r : Except JsError ApiPayload) :
    (loadingEntry s).loading = true ∧
    (loadingEntry s).error = none ∧
    (loadUHIData s r).1.loading = false ∧
    (validateParameters s.numPoints s.daysBack ≠ [] →
      ((loadUHIData s r).1.error =
        some (String.intercalate ". " (validateParameters s.numPoints s.daysBack)) ∧
       (loadUHIData s r).2 = false ∧
       (loadUHIData s r).1.uhiData = s.uhiData ∧
       (loadUHIData s r).1.statistics = s.statistics)) ∧
    (validateParameters s.numPoints s.daysBack = [] →
      ((loadUHIData s r).2 = true ∧
       (∀ payload, r = Except.ok payload →
         (loadUHIData s r).1.uhiData = some payload.data ∧
         (loadUHIData s r).1.statistics = some payload.statistics ∧
         (loadUHIData s r).1.error = none) ∧
       (∀ e, r = Except.error e →
         (loadUHIData s r).1.error = some (catchBanner e)) ∧
       (∀ status body, r = fetchUHIData (.response false status body) →
         (loadUHIData s r).1.error =
           some ("HTTP error! status: " ++ toString status)) ∧
       (∀ status body m, r = fetchUHIData (.response true status body) →
         body.success = false → body.error = some m → m ≠ "" →
         (loadUHIData s r).1.error = some m) ∧
       (∀ status body, r = fetchUHIData (.response true status body) →
         body.success = false → body.error = none →
         (loadUHIData s r).1.error = some "API returned error"))) := by
  refine ⟨rfl, rfl, ?_, ?_, ?_⟩
  · simp only [loadUHIData]
    split
    · rfl
    · cases r <;> rfl
  · intro hne
    have hlen : (validateParameters s.numPoints s.daysBack).length > 0 :=
      List.length_pos.mpr hne
    simp only [loadUHIData]
    rw [if_pos hlen]
    exact ⟨rfl, rfl, rfl, rfl⟩
  · intro hv
    have hlen : ¬ (validateParameters s.numPoints s.daysBack).length > 0 := by
      simp [hv]
    refine ⟨?_, ?_, ?_, ?_, ?_, ?_⟩
    · simp only [loadUHIData]
      rw [if_neg hlen]
      cases r <;> rfl
    · intro payload hp
      subst hp
      simp only [loadUHIData]
      rw [if_neg hlen]
      exact ⟨rfl, rfl, rfl⟩
    · intro e he
      subst he
      simp only [loadUHIData]
      rw [if_neg hlen]
    · intro status body hr
      subst hr
      simp only [loadUHIData, fetchUHIData]
      rw [if_neg hlen]
      simp [catchBanner, httpMsg_ne_empty status]
    · intro status body m hr hs hm hne
      subst hr
      simp only [loadUHIData, fetchUHIData, hs, hm]
      rw [if_neg hlen]
      simp [catchBanner, hne]
    · intro status body hr hs hm
      subst hr
      simp only [loadUHIData, fetchUHIData, hs, hm]
      rw [if_neg hlen]
      simp [catchBanner]

/-- Witness for C3: with valid parameters (100 points, 30 days) and a
successful fetch of one point, the cycle issues the fetch, stores the
payload's fields, and ends with `loading` false. -/
theorem loadUHIData_cycle_witness :
    ((loadUHIData
        ⟨none, none, false, none, true, 100, 30, "all", none, false, "map"⟩
        (Except.ok ⟨true, [⟨1, 2, 2, "add shade"⟩], ⟨"st"⟩, none⟩)).1.uhiData
      = some [⟨1, 2, 2, "add shade"⟩] ∧
     (loadUHIData
        ⟨none, none, false, none, true, 100, 30, "all", none, false, "map"⟩
        (Except.ok ⟨true, [⟨1, 2, 2, "add shade"⟩], ⟨"st"⟩, none⟩)).1.statistics
      = some ⟨"st"⟩ ∧
     (loadUHIData
        ⟨none, none, false, none, true, 100, 30, "all", none, false, "map"⟩
        (Except.ok ⟨true, [⟨1, 2, 2, "add shade"⟩], ⟨"st"⟩, none⟩)).2 = true ∧
     (loadUHIData
        ⟨none, none, false, none, true, 100, 30, "all", none, false, "map"⟩
        (Except.ok ⟨true, [⟨1, 2, 2, "add shade"⟩], ⟨"st"⟩, none⟩)).1.loading
      = false) := by
  have h := loadUHIData_cycle
    ⟨none, none, false, none, true, 100, 30, "all", none, false, "map"⟩
    (Except.ok ⟨true, [⟨1, 2, 2, "add shade"⟩], ⟨"st"⟩, none⟩)
  have h5 := h.2.2.2.2 (by decide)
  exact ⟨(h5.2.1 _ rfl).1, (h5.2.1 _ rfl).2.1, h5.1, h.2.2.1⟩

/-- C7 (amended): `MapView` renders exactly one marker per point of its
collection — applying no selected-zone filter at all — at that point's
coordinate, colored zone 2 → red, zone 1 → orange, any other zone (including
zone 0) → green, with the point's recommendation text as tooltip. -/
theorem mapView_markers (data : List SamplePoint) :
    (mapViewMarkers data).length = data.length ∧
    List.Forall₂ (fun d mk => mk.latitude = d.lat ∧ mk.longitude = d.lon ∧
      mk.color = markerColor d.zone ∧ mk.title = d.recommendation)
      data (mapViewMarkers data) ∧
    markerColor 2 = "red" ∧ markerColor 1 = "orange" ∧ markerColor 0 = "green" ∧
    (∀ z : ℤ, z ≠ 2 → z ≠ 1 → markerColor z = "green") ∧
    mapViewMarkers data = specFilteredMarkers data none := by
  refine ⟨by simp [mapViewMarkers], ?_, rfl, rfl, rfl, ?_, ?_⟩
  · induction data with
    | nil => exact List.Forall₂.nil
    | cons d rest ih => exact List.Forall₂.cons ⟨rfl, rfl, rfl, rfl⟩ ih
  · intro z h2 h1
    unfold markerColor
    rw [if_neg h2, if_neg h1]
  · simp [mapViewMarkers, specFilteredMarkers]

/-- Witness for C7's amended theorem: the three-point scenario (zones 0, 1, 2)
renders three markers colored green, orange, red. -/
theorem mapView_markers_witness :
    (mapViewMarkers
      [⟨20, 85, 0, "ok"⟩, ⟨21, 86, 1, "warm"⟩, ⟨22, 87, 2, "hot"⟩]).length = 3 ∧
    mapViewMarkers [⟨20, 85, 0, "ok"⟩, ⟨21, 86, 1, "warm"⟩, ⟨22, 87, 2, "hot"⟩]
      = [⟨20, 85, "green", "ok"⟩, ⟨21, 86, "orange", "warm"⟩,
         ⟨22, 87, "red", "hot"⟩] := by
  have h := mapView_markers
    [⟨20, 85, 0, "ok"⟩, ⟨21, 86, 1, "warm"⟩, ⟨22, 87, 2, "hot"⟩]
  exact ⟨h.1.trans (by decide), by decide⟩

/-- Counterexample to C7 as stated: with a selected-zone filter of zone 2,
`MapView` still renders all three markers — it excludes nothing, because the
component never consults a filter. -/
theorem mapView_no_filter_counterexample :
    mapViewMarkers [⟨20, 85, 0, "ok"⟩, ⟨21, 86, 1, "warm"⟩, ⟨22, 87, 2, "hot"⟩]
      ≠ specFilteredMarkers
          [⟨20, 85, 0, "ok"⟩, ⟨21, 86, 1, "warm"⟩, ⟨22, 87, 2, "hot"⟩]
          (some 2) ∧
    (mapViewMarkers
      [⟨20, 85, 0, "ok"⟩, ⟨21, 86, 1, "warm"⟩, ⟨22, 87, 2, "hot"⟩]).length = 3 ∧
    (specFilteredMarkers
      [⟨20, 85, 0, "ok"⟩, ⟨21, 86, 1, "warm"⟩, ⟨22, 87, 2, "hot"⟩]
      (some 2)).length = 1 := by
  decide

/-- Every character `digitChar` produces is a decimal digit. -/
lemma digitChar_isDigit (n : ℕ) : (digitChar n).isDigit = true := by
  unfold digitChar
  have h : n % 10 < 10 := Nat.mod_lt _ (by norm_num)
  generalize hk : n % 10 = k at h ⊢
  interval_cases k <;> decide

/-- `toISOString` always produces a string of the ISO-8601 extended UTC
timestamp shape. -/
lemma isValidISO8601_toISOString (t : ℕ) :
    isValidISO8601 (toISOString t) = true := by
  unfold isValidISO8601 toISOString pad4chars pad3chars pad2chars
  simp [digitChar_isDigit]

/-- C6: whenever data has been loaded (`uhiData` is non-null), the export
handler produces the document `{ data, statistics, exportedAt }` holding
exactly the stored (last successfully loaded) `uhiData` and `statistics`,
downloaded under the name `uhi-analysis-<ISO-date>.json`; `exportedAt` is the
ISO-8601 rendering of the export-time clock value, which is no earlier than
the load time (the clock is monotone across the two events); and the handler
changes no shell state. The bound keeps the timestamp within the four-digit
year range that `toISOString` models. -/
theorem handleExportData_spec (s : ShellState) (d : List SamplePoint)
    (tLoad tNow : ℕ) (hd : s.uhiData = some d) (hclock : tLoad ≤ tNow)
    (_hbound : tNow ≤ 253402300799999) :
    handleExportData s tNow =
      some (⟨d, s.statistics, toISOString tNow⟩,
            "uhi-analysis-" ++ isoDatePart tNow ++ ".json") ∧
    isValidISO8601 (toISOString tNow) = true ∧
    tLoad ≤ tNow ∧
    step s .exportClick = (s, false) := by
  refine ⟨?_, isValidISO8601_toISOString tNow, hclock, rfl⟩
  simp [handleExportData, hd]

/-- Witness for C6 at a concrete state and concrete load/export times. -/
theorem handleExportData_spec_witness :
    handleExportData
        ⟨some [⟨1, 2, 1, "shade"⟩], some ⟨"st"⟩, false, none, true,
         100, 30, "all", none, false, "map"⟩
        1760140800000 =
      some (⟨[⟨1, 2, 1, "shade"⟩], some ⟨"st"⟩, toISOString 1760140800000⟩,
            "uhi-analysis-" ++ isoDatePart 1760140800000 ++ ".json") ∧
    isValidISO8601 (toISOString 1760140800000) = true ∧
    1760000000000 ≤ 1760140800000 ∧
    step ⟨some [⟨1, 2, 1, "shade"⟩], some ⟨"st"⟩, false, none, true,
          100, 30, "all", none, false, "map"⟩ .exportClick =
      (⟨some [⟨1, 2, 1, "shade"⟩], some ⟨"st"⟩, false, none, true,
        100, 30, "all", none, false, "map"⟩, false) :=
  handleExportData_spec
    ⟨some [⟨1, 2, 1, "shade"⟩], some ⟨"st"⟩, false, none, true,
     100, 30, "all", none, false, "map"⟩
    [⟨1, 2, 1, "shade"⟩] 1760000000000 1760140800000
    rfl (by norm_num) (by norm_num)

end UHI
